import Mathlib

/-!
Verification of the Research → Plan → Assets pipeline of the Action Planner
repository (schemas.py, researcher_groq.py, planner_groq.py, producer_groq.py,
app.py).  The generation service (a langchain/Groq structured-output chain) is
modelled as an oracle `Nat → payload → Except PyExn doc`: the `Nat` is the
index of the outbound call, so the oracle can answer differently on a retry.
Each stage function returns, besides its result, the list of payloads it sent
outbound; the length of that list is the number of outbound calls.
-/

namespace ActionPlanner

/-- A Python `str` dict is modelled as an association list; Python dicts
iterate in insertion order, which the association-list order captures. -/
abbrev StrDict := List (String × String)

/-- `Union[List[Dict[str, str]], Dict[str, str]]`: the risks field of
`PlanOut` and `ResearchOut` in schemas.py may be a list of dicts or a dict. -/
inductive Risks where
  | asList : List StrDict → Risks
  | asDict : StrDict → Risks
deriving Repr, DecidableEq

/-- schemas.py `Target`. -/
structure Target where
  name : String
  why : String
deriving Repr, DecidableEq

/-- schemas.py `Reference`. -/
structure Reference where
  title : String
  url : String
deriving Repr, DecidableEq

/-- schemas.py `TaskItem`; `owner` defaults to "You", `effort_hrs` is
declared with `ge=1, le=12`. -/
structure TaskItem where
  desc : String
  owner : String := "You"
  effort_hrs : Int
deriving Repr, DecidableEq

/-- schemas.py `Milestone`. -/
structure Milestone where
  title : String
  due : String
  tasks : List TaskItem
deriving Repr, DecidableEq

/-- schemas.py `PlanOut`. -/
structure PlanOut where
  milestones : List Milestone
  success_metrics : List String
  risks : Risks
deriving Repr, DecidableEq

/-- schemas.py `ResearchOut`. -/
structure ResearchOut where
  targets : List Target
  insights : List String
  risks : Risks
  references : List Reference
deriving Repr, DecidableEq

/-- schemas.py `AssetsOut`. -/
structure AssetsOut where
  launch_email : String
  social_posts : List String
  script_outline : String
  weekly_checklist : String
deriving Repr, DecidableEq

/-! ## Schema validation

Pydantic validates a response against the declared field constraints.  For
data of the declared shape, the only refutable constraint in schemas.py is
`effort_hrs: int = Field(..., ge=1, le=12)`; no list field carries a
`min_length`/`max_length` bound. -/

/-- Pydantic validation of a `TaskItem`: the `ge=1, le=12` bound on
`effort_hrs` is the only constraint. -/
def validTaskItem (t : TaskItem) : Bool :=
  decide (1 ≤ t.effort_hrs) && decide (t.effort_hrs ≤ 12)

/-- Pydantic validation of a `Milestone`: nested validation of its tasks;
the task list itself is unconstrained. -/
def validMilestone (m : Milestone) : Bool :=
  m.tasks.all validTaskItem

/-- Pydantic validation of a `PlanOut` response: nested validation of its
milestones; the milestone list itself is unconstrained. -/
def validPlanOut (p : PlanOut) : Bool :=
  p.milestones.all validMilestone

/-! ## Exceptions and risk normalization -/

/-- Python exceptions the pipeline distinguishes: `pydantic.ValidationError`
(caught by the stage retry handlers) and every other exception (transport
errors, `KeyError`, ...), which no stage handler catches. -/
inductive PyExn where
  | validation : PyExn
  | other : PyExn
deriving Repr, DecidableEq

/-- `True` exactly when an `Except` result is `ok` (the Python call returned
instead of raising). -/
def okB {α : Type} : Except PyExn α → Bool
  | .ok _ => true
  | .error _ => false

/-- app.py risk normalization, applied to the `risks` field of a stored
document: `if isinstance(r.risks, dict): r.risks = [{"risk": k,
"mitigation": v} for k, v in r.risks.items()]` — a dict becomes a list of
two-key dicts, a list is left unchanged. -/
def normalizeRisksField (r : Risks) : Risks :=
  match r with
  | .asDict m => .asList (m.map fun kv => [("risk", kv.1), ("mitigation", kv.2)])
  | .asList l => .asList l

/-- producer_groq.py lines 39–41: the research risks viewed as a list —
converted when they are a dict, used as-is when already a list. -/
def risksAsList (r : Risks) : List StrDict :=
  match r with
  | .asList l => l
  | .asDict m => m.map fun kv => [("risk", kv.1), ("mitigation", kv.2)]

/-- app.py: the stored ResearchDoc after the handler normalizes its risks. -/
def normResearchDoc (r : ResearchOut) : ResearchOut :=
  { r with risks := normalizeRisksField r.risks }

/-- app.py: the stored PlanDoc after the handler normalizes its risks. -/
def normPlanDoc (p : PlanOut) : PlanOut :=
  { p with risks := normalizeRisksField p.risks }

/-! ## Payloads -/

/-- Python `x or d` for `Optional[str] x`: `None` and `""` are falsy. -/
def pyOr (s : Option String) (d : String) : String :=
  match s with
  | none => d
  | some v => if v = "" then d else v

/-- The payload the Research and Plan chains receive: goal, audience,
constraints. -/
structure GenPayload where
  goal : String
  audience : String
  constraints : String
deriving Repr, DecidableEq

/-- The payload the Assets chain receives: goal, audience, constraints,
plan JSON, research summary. -/
structure AssetsPayload where
  goal : String
  audience : String
  constraints : String
  plan_json : String
  research_summary : String
deriving Repr, DecidableEq

/-- `payload["constraints"] += " STRICT JSON ONLY."` in planner_groq.py. -/
def retryAmend (p : GenPayload) : GenPayload :=
  { p with constraints := p.constraints ++ " STRICT JSON ONLY." }

/-- `payload["constraints"] += " STRICT JSON ONLY."` in producer_groq.py. -/
def retryAmendAssets (p : AssetsPayload) : AssetsPayload :=
  { p with constraints := p.constraints ++ " STRICT JSON ONLY." }

/-! ## Plan serialization (pydantic `model_dump_json`) -/

/-- JSON string escaping of quote and backslash. -/
def jsonEscape (s : String) : String :=
  s.foldl (fun acc ch =>
    if ch = '\\' then acc ++ "\\\\"
    else if ch = '\"' then acc ++ "\\\""
    else acc.push ch) ""

/-- A JSON string literal. -/
def jsonStr (s : String) : String := "\"" ++ jsonEscape s ++ "\""

/-- A JSON array from already-serialized elements. -/
def jsonArr (xs : List String) : String :=
  "[" ++ String.intercalate "," xs ++ "]"

/-- JSON serialization of a `TaskItem` (field order of schemas.py). -/
def taskItemJson (t : TaskItem) : String :=
  "\x7b\"desc\":" ++ jsonStr t.desc ++ ",\"owner\":" ++ jsonStr t.owner ++
    ",\"effort_hrs\":" ++ toString t.effort_hrs ++ "\x7d"

/-- JSON serialization of a `Milestone`. -/
def milestoneJson (m : Milestone) : String :=
  "\x7b\"title\":" ++ jsonStr m.title ++ ",\"due\":" ++ jsonStr m.due ++
    ",\"tasks\":" ++ jsonArr (m.tasks.map taskItemJson) ++ "\x7d"

/-- JSON serialization of a string dict. -/
def strDictJson (d : StrDict) : String :=
  "\x7b" ++ String.intercalate "," (d.map fun kv => jsonStr kv.1 ++ ":" ++ jsonStr kv.2) ++ "\x7d"

/-- JSON serialization of either risks shape. -/
def risksJson : Risks → String
  | .asList l => jsonArr (l.map strDictJson)
  | .asDict m => strDictJson m

/-- `plan.model_dump_json()` in producer_groq.py. -/
def planDumpJson (p : PlanOut) : String :=
  "\x7b\"milestones\":" ++ jsonArr (p.milestones.map milestoneJson) ++
    ",\"success_metrics\":" ++ jsonArr (p.success_metrics.map jsonStr) ++
    ",\"risks\":" ++ risksJson p.risks ++ "\x7d"

/-! ## Research grounding summary (producer_groq.py lines 36–46) -/

/-- Python `repr` of a string for the simple strings at hand:
the string wrapped in single quotes (`\x27`). -/
def pyReprStr (s : String) : String := "\x27" ++ s ++ "\x27"

/-- Python `repr` of a list of strings: elements separated by ", " inside
square brackets. -/
def pyReprStrList (l : List String) : String :=
  "[" ++ String.intercalate ", " (l.map pyReprStr) ++ "]"

/-- `[r['risk'] for r in rrisks[:2]]`: the `risk` field of the first two
normalized risk items; a missing key raises `KeyError` (modelled as
`PyExn.other`). -/
def risksTop2 (rr : List StrDict) : Except PyExn (List String) :=
  (rr.take 2).mapM fun r =>
    match List.lookup "risk" r with
    | some v => Except.ok v
    | none => Except.error PyExn.other

/-- producer_groq.py `research_summary`: `""` when `research` is `None`;
otherwise the targets line, the first three insights and the `risk` field of
the first two normalized risk items, in Python `repr` form. -/
def researchSummary (research : Option ResearchOut) : Except PyExn String :=
  match research with
  | none => Except.ok ""
  | some r =>
    match risksTop2 (risksAsList r.risks) with
    | .error e => .error e
    | .ok rs =>
      .ok ("targets=" ++ pyReprStrList (r.targets.map Target.name) ++ "\n" ++
           "insights_top3=" ++ pyReprStrList (r.insights.take 3) ++ "\n" ++
           "risks_top2=" ++ pyReprStrList rs)

/-! ## The three stage functions -/

/-- researcher_groq.py `make_research`: builds the payload verbatim from its
three string arguments (no defaulting) and performs exactly one chain
invocation — there is no try/except around it, so any error propagates and
no retry happens. -/
def make_research (svc : Nat → GenPayload → Except PyExn ResearchOut)
    (goal audience constraints : String) :
    Except PyExn ResearchOut × List GenPayload :=
  let payload : GenPayload := { goal := goal, audience := audience, constraints := constraints }
  (svc 0 payload, [payload])

/-- The first payload planner_groq.py `make_plan` sends: audience defaulted
to "general", constraints to "keep budget low" when falsy. -/
def planPayload1 (goal : String) (audience constraints : Option String) : GenPayload :=
  { goal := goal
    audience := pyOr audience "general"
    constraints := pyOr constraints "keep budget low" }

/-- planner_groq.py `make_plan`: one chain invocation; on
`ValidationError`, amend the constraints with " STRICT JSON ONLY." and
invoke once more, propagating whatever the second invocation does; any
other first-call error propagates directly. -/
def make_plan (svc : Nat → GenPayload → Except PyExn PlanOut)
    (goal : String) (audience constraints : Option String) :
    Except PyExn PlanOut × List GenPayload :=
  let payload := planPayload1 goal audience constraints
  match svc 0 payload with
  | .ok p => (.ok p, [payload])
  | .error .validation =>
    let payload2 := retryAmend payload
    (svc 1 payload2, [payload, payload2])
  | .error e => (.error e, [payload])

/-- The first payload producer_groq.py `make_assets` sends: audience
defaulted to "general", constraints to "concise, friendly", the plan dumped
to JSON, and the given research summary. -/
def assetsPayload1 (goal : String) (audience constraints : Option String)
    (plan : PlanOut) (rs : String) : AssetsPayload :=
  { goal := goal
    audience := pyOr audience "general"
    constraints := pyOr constraints "concise, friendly"
    plan_json := planDumpJson plan
    research_summary := rs }

/-- producer_groq.py `make_assets`: build the research summary (a `KeyError`
there propagates before any outbound call), then one chain invocation with
one `ValidationError`-triggered retry under the amended constraints. -/
def make_assets (svc : Nat → AssetsPayload → Except PyExn AssetsOut)
    (goal : String) (audience constraints : Option String)
    (plan : PlanOut) (research : Option ResearchOut) :
    Except PyExn AssetsOut × List AssetsPayload :=
  match researchSummary research with
  | .error e => (.error e, [])
  | .ok rs =>
    let payload := assetsPayload1 goal audience constraints plan rs
    match svc 0 payload with
    | .ok a => (.ok a, [payload])
    | .error .validation =>
      let payload2 := retryAmendAssets payload
      (svc 1 payload2, [payload, payload2])
    | .error e => (.error e, [payload])

/-! ## Orchestrator (app.py)

Session state is the three document slots plus the `edit_mode` flag.  The
`if st.session_state.research:` / `if st.session_state.plan:` gates test
Python truthiness; `None` is falsy and a pydantic model instance is truthy,
so the gates are `Option.isSome` tests on the slots. -/

/-- app.py session buckets (lines 73–77). -/
structure Session where
  research : Option ResearchOut
  plan : Option PlanOut
  assets : Option AssetsOut
  edit_mode : Bool
deriving Repr, DecidableEq

/-- The three oracles standing for the Research/Plan/Assets chains. -/
structure Services where
  research : Nat → GenPayload → Except PyExn ResearchOut
  plan : Nat → GenPayload → Except PyExn PlanOut
  assets : Nat → AssetsPayload → Except PyExn AssetsOut

/-- One of the three pipeline stages, used to record which stages a run-all
invocation entered. -/
inductive Stage where
  | research
  | plan
  | assets
deriving Repr, DecidableEq

/-- app.py run-all, research block (lines 197–206): try `make_research`; on
success normalize the risks and store the document, on any exception show an
error and leave the session unchanged. -/
def runAllResearch (svc : Services) (g a c : String) (s : Session) : Session :=
  match (make_research svc.research g a c).1 with
  | .ok r => { s with research := some (normResearchDoc r) }
  | .error _ => s

/-- app.py run-all, plan block (lines 208–217): gated on
`st.session_state.research` being truthy; inside, try `make_plan`, normalize
and store on success, leave the session unchanged on exception.  The `Bool`
records whether `make_plan` was invoked. -/
def runAllPlan (svc : Services) (g a c : String) (s : Session) : Session × Bool :=
  match s.research with
  | some _ =>
    match (make_plan svc.plan g (some a) (some c)).1 with
    | .ok p => ({ s with plan := some (normPlanDoc p) }, true)
    | .error _ => (s, true)
  | none => (s, false)

/-- app.py run-all, assets block (lines 219–230): gated on
`st.session_state.plan` being truthy; inside, try `make_assets` with the
stored plan and research, store on success, leave the session unchanged on
exception.  The `Bool` records whether `make_assets` was invoked. -/
def runAllAssets (svc : Services) (g a c : String) (s : Session) : Session × Bool :=
  match s.plan with
  | some p =>
    match (make_assets svc.assets g (some a) (some c) p s.research).1 with
    | .ok a2 => ({ s with assets := some a2 }, true)
    | .error _ => (s, true)
  | none => (s, false)

/-- app.py run-all handler (lines 197–230): Research block, then the Plan
block gated on the research slot, then the Assets block gated on the plan
slot.  Returns the final session and the list of stages whose `make_*`
function was invoked, in order. -/
def runAll (svc : Services) (g a c : String) (s0 : Session) :
    Session × List Stage :=
  let s1 := runAllResearch svc g a c s0
  let sp := runAllPlan svc g a c s1
  let sa := runAllAssets svc g a c sp.1
  (sa.1, Stage.research ::
    ((if sp.2 then [Stage.plan] else []) ++ (if sa.2 then [Stage.assets] else [])))

/-- app.py single-stage Research handler (lines 232–242): try
`make_research`; on success normalize the risks and store, on exception
leave the session unchanged. -/
def run_research_handler (svc : Nat → GenPayload → Except PyExn ResearchOut)
    (g a c : String) (s : Session) : Session :=
  match (make_research svc g a c).1 with
  | .ok r => { s with research := some (normResearchDoc r) }
  | .error _ => s

/-- app.py single-stage Plan handler (lines 256–266): try `make_plan`; on
success normalize the risks, store the plan and set `edit_mode`; on
exception leave the session unchanged. -/
def run_plan_handler (svc : Nat → GenPayload → Except PyExn PlanOut)
    (g a c : String) (s : Session) : Session :=
  match (make_plan svc g (some a) (some c)).1 with
  | .ok p => { s with plan := some (normPlanDoc p), edit_mode := true }
  | .error _ => s

/-- app.py single-stage Assets handler (lines 292–306): when no plan is
stored, emit the "Run planning first." warning and make no call; otherwise
try `make_assets` and store on success.  Returns the session, the number of
outbound calls and whether the warning was emitted. -/
def run_assets_handler (svc : Nat → AssetsPayload → Except PyExn AssetsOut)
    (g a c : String) (s : Session) : Session × Nat × Bool :=
  match s.plan with
  | none => (s, 0, true)
  | some p =>
    let res := make_assets svc g (some a) (some c) p s.research
    match res.1 with
    | .ok a2 => ({ s with assets := some a2 }, res.2.length, false)
    | .error _ => (s, res.2.length, false)

/-! ## Concrete documents, services and sessions used in the theorems -/

/-- A concrete valid ResearchDoc. -/
def sampleResearch : ResearchOut :=
  { targets := [{ name := "CS students", why := "core audience" }]
    insights := ["ins1", "ins2", "ins3", "ins4", "ins5"]
    risks := Risks.asList [[("risk", "scope creep"), ("mitigation", "timebox")]]
    references := [{ title := "guide", url := "https://example.com" }] }

/-- A concrete valid PlanDoc. -/
def samplePlan : PlanOut :=
  { milestones := [{ title := "setup", due := "2025-01-05",
                     tasks := [{ desc := "buy mic", effort_hrs := 2 },
                               { desc := "write script", effort_hrs := 3 }] },
                   { title := "launch", due := "2025-01-12",
                     tasks := [{ desc := "record", effort_hrs := 4 },
                               { desc := "publish", effort_hrs := 1 }] }]
    success_metrics := ["episode one live"]
    risks := Risks.asList [[("risk", "delay"), ("mitigation", "buffer")]] }

/-- A concrete AssetsDoc. -/
def sampleAssets : AssetsOut :=
  { launch_email := "Subject: Launch\nHello"
    social_posts := ["post1", "post2", "post3"]
    script_outline := "## Outline"
    weekly_checklist := "- record" }

/-- A research service that fails validation on the first call and would
succeed on a second call. -/
def svcResearchRetryOk : Nat → GenPayload → Except PyExn ResearchOut :=
  fun n _ => if n = 0 then .error .validation else .ok sampleResearch

/-- A plan service that fails validation on the first call and succeeds on
the second. -/
def svcPlanRetryOk : Nat → GenPayload → Except PyExn PlanOut :=
  fun n _ => if n = 0 then .error .validation else .ok samplePlan

/-- An assets service that fails validation on the first call and succeeds
on the second. -/
def svcAssetsRetryOk : Nat → AssetsPayload → Except PyExn AssetsOut :=
  fun n _ => if n = 0 then .error .validation else .ok sampleAssets

/-- Services where every stage always fails with a transport-level error. -/
def svcAllFail : Services :=
  { research := fun _ _ => .error .other
    plan := fun _ _ => .error .other
    assets := fun _ _ => .error .other }

/-- Services where Research always fails but Plan and Assets succeed. -/
def svcResearchFails : Services :=
  { research := fun _ _ => .error .other
    plan := fun _ _ => .ok samplePlan
    assets := fun _ _ => .ok sampleAssets }

/-- A session already holding Research and Plan documents from earlier
invocations. -/
def sessionWithDocs : Session :=
  { research := some sampleResearch, plan := some samplePlan
    assets := none, edit_mode := false }

/-- A fresh, empty session. -/
def emptySession : Session :=
  { research := none, plan := none, assets := none, edit_mode := false }

/-- A Plan response with exactly one milestone carrying six in-range tasks:
well inside what schemas.py accepts, since no list bounds are declared. -/
def oneMilestonePlan : PlanOut :=
  { milestones := [{ title := "only milestone", due := "2025-01-01",
                     tasks := List.replicate 6
                       { desc := "task", owner := "You", effort_hrs := 5 } }]
    success_metrics := []
    risks := Risks.asList [] }

/-- A Plan response containing a task with `effort_hrs = 13`. -/
def effort13Plan : PlanOut :=
  { milestones := [{ title := "m", due := "2025-01-01",
                     tasks := [{ desc := "t", owner := "You", effort_hrs := 13 }] }]
    success_metrics := []
    risks := Risks.asList [] }

/-! ## Theorems -/

/-- Unfolded characterisation of schema validation of a Plan response: the
only enforced constraint is the effort bound on every task. -/
lemma validPlanOut_iff (q : PlanOut) :
    validPlanOut q = true ↔
      ∀ m ∈ q.milestones, ∀ t ∈ m.tasks, 1 ≤ t.effort_hrs ∧ t.effort_hrs ≤ 12 := by
  simp [validPlanOut, validMilestone, validTaskItem, List.all_eq_true]

/-- C5: risk normalization is shape-invariant — a mapping becomes the list
of its pairs as `risk`/`mitigation` records, in iteration order (pointwise
at every index), and a list input is left unchanged, both for the risks
viewed as a list (producer_groq.py) and for the in-place field
normalization (app.py). -/
theorem C5_risk_normalization (m : StrDict) (l : List StrDict)
    (i : Nat) (kv : String × String) (hi : m[i]? = some kv) :
    risksAsList (Risks.asDict m)
      = m.map (fun kv2 => [("risk", kv2.1), ("mitigation", kv2.2)]) ∧
    (risksAsList (Risks.asDict m)).length = m.length ∧
    (risksAsList (Risks.asDict m))[i]? = some [("risk", kv.1), ("mitigation", kv.2)] ∧
    risksAsList (Risks.asList l) = l ∧
    normalizeRisksField (Risks.asList l) = Risks.asList l ∧
    normalizeRisksField (Risks.asDict m)
      = Risks.asList (m.map (fun kv2 => [("risk", kv2.1), ("mitigation", kv2.2)])) := by
  refine ⟨rfl, by simp [risksAsList], ?_, rfl, rfl, rfl⟩
  simp [risksAsList, List.getElem?_map, hi]

/-- Witness for C5 at a concrete two-entry mapping. -/
theorem C5_risk_normalization_witness :
    (([("k1", "v1"), ("k2", "v2")] : StrDict))[1]? = some ("k2", "v2") ∧
    (risksAsList (Risks.asDict [("k1", "v1"), ("k2", "v2")]))[1]?
      = some [("risk", "k2"), ("mitigation", "v2")] :=
  ⟨rfl, (C5_risk_normalization [("k1", "v1"), ("k2", "v2")] [] 1 ("k2", "v2") rfl).2.2.1⟩

/-- C3 counterexample: a Plan response with exactly one milestone carrying
six tasks passes schema validation — the claimed milestone-count and
tasks-per-milestone bounds are not enforced by schemas.py. -/
theorem C3_counterexample :
    validPlanOut oneMilestonePlan = true ∧
    oneMilestonePlan.milestones.length = 1 ∧
    oneMilestonePlan.milestones.map (fun m => m.tasks.length) = [6] := by
  exact ⟨rfl, rfl, rfl⟩

/-- C3 amended: `effort_hrs` outside [1,12] (e.g. 13) is rejected as a hard
validation bound, never clamped; validation of a Plan response enforces
exactly that bound and nothing about milestone or task counts. -/
theorem C3_effort_bound (p : PlanOut) (m : Milestone) (t : TaskItem)
    (hm : m ∈ p.milestones) (ht : t ∈ m.tasks) (h13 : t.effort_hrs = 13) :
    validPlanOut p = false ∧
    (∀ q : PlanOut, validPlanOut q = true ↔
      ∀ m2 ∈ q.milestones, ∀ t2 ∈ m2.tasks, 1 ≤ t2.effort_hrs ∧ t2.effort_hrs ≤ 12) := by
  refine ⟨?_, validPlanOut_iff⟩
  cases hb : validPlanOut p with
  | false => rfl
  | true =>
    have h2 := (validPlanOut_iff p).1 hb m hm t ht
    rw [h13] at h2
    exact absurd h2 (by omega)

/-- Witness for C3's amended theorem at the concrete effort-13 plan. -/
theorem C3_effort_bound_witness :
    validPlanOut effort13Plan = false :=
  (C3_effort_bound effort13Plan
    { title := "m", due := "2025-01-01",
      tasks := [{ desc := "t", owner := "You", effort_hrs := 13 }] }
    { desc := "t", owner := "You", effort_hrs := 13 }
    (List.mem_singleton.mpr rfl) (List.mem_singleton.mpr rfl) rfl).1

/-- C2 counterexample: a research service failing schema validation on call
0 and well-formed on call 1.  `make_research` propagates the validation
error after a single outbound call — no retry is attempted even though one
would have succeeded, and no amended constraints are ever sent. -/
theorem C2_counterexample :
    (make_research svcResearchRetryOk "g" "aud" "cons").1
      = Except.error PyExn.validation ∧
    (make_research svcResearchRetryOk "g" "aud" "cons").2.length = 1 ∧
    svcResearchRetryOk 1
        (retryAmend { goal := "g", audience := "aud", constraints := "cons" })
      = Except.ok sampleResearch :=
  ⟨rfl, rfl, rfl⟩

/-- C2 amended: the Research stage makes exactly one outbound call and
returns exactly what that call returns, propagating any error immediately —
there is no validation-triggered retry and no "STRICT JSON ONLY"
amendment in the Research stage. -/
theorem C2_research_single_call (svc : Nat → GenPayload → Except PyExn ResearchOut)
    (g a c : String) :
    (make_research svc g a c).1
      = svc 0 { goal := g, audience := a, constraints := c } ∧
    (make_research svc g a c).2.length = 1 :=
  ⟨rfl, rfl⟩

/-- C8 counterexample: invoked with empty audience and constraints, the
Research stage sends the empty strings verbatim — the payload's audience is
not the claimed default "general". -/
theorem C8_counterexample :
    (make_research svcResearchRetryOk "g" "" "").2
      = [{ goal := "g", audience := "", constraints := "" }] ∧
    ({ goal := "g", audience := "", constraints := "" } : GenPayload).audience
      ≠ "general" :=
  ⟨rfl, by decide⟩

/-- C8 amended: the Research stage substitutes no defaults — the single
payload it sends carries its goal, audience and constraints arguments
verbatim, empty or not. -/
theorem C8_research_verbatim (svc : Nat → GenPayload → Except PyExn ResearchOut)
    (g a c : String) :
    (make_research svc g a c).2.map GenPayload.goal = [g] ∧
    (make_research svc g a c).2.map GenPayload.audience = [a] ∧
    (make_research svc g a c).2.map GenPayload.constraints = [c] :=
  ⟨rfl, rfl, rfl⟩

/-- C4: Plan and Assets stages retry exactly once on a validation failure.
If the first call fails validation, the stage's result is exactly the second
call's result (a valid document is returned; a second failure is raised),
the outbound trace is exactly the first payload followed by the amended
payload — so two calls, never a third — and the amended payload's
constraints are the first payload's constraints with " STRICT JSON ONLY."
appended.  Unconditionally, neither stage ever makes more than two calls. -/
theorem C4_retry_once
    (svcP : Nat → GenPayload → Except PyExn PlanOut)
    (svcA : Nat → AssetsPayload → Except PyExn AssetsOut)
    (g g2 : String) (a c a2 c2 : Option String)
    (plan : PlanOut) (research : Option ResearchOut) (rs : String)
    (hrs : researchSummary research = Except.ok rs)
    (hv : svcP 0 (planPayload1 g a c) = Except.error PyExn.validation)
    (hv2 : svcA 0 (assetsPayload1 g2 a2 c2 plan rs) = Except.error PyExn.validation) :
    (make_plan svcP g a c).1 = svcP 1 (retryAmend (planPayload1 g a c)) ∧
    (make_plan svcP g a c).2
      = [planPayload1 g a c, retryAmend (planPayload1 g a c)] ∧
    (retryAmend (planPayload1 g a c)).constraints
      = (planPayload1 g a c).constraints ++ " STRICT JSON ONLY." ∧
    (make_assets svcA g2 a2 c2 plan research).1
      = svcA 1 (retryAmendAssets (assetsPayload1 g2 a2 c2 plan rs)) ∧
    (make_assets svcA g2 a2 c2 plan research).2
      = [assetsPayload1 g2 a2 c2 plan rs,
         retryAmendAssets (assetsPayload1 g2 a2 c2 plan rs)] ∧
    (retryAmendAssets (assetsPayload1 g2 a2 c2 plan rs)).constraints
      = (assetsPayload1 g2 a2 c2 plan rs).constraints ++ " STRICT JSON ONLY." ∧
    (∀ svcP2 : Nat → GenPayload → Except PyExn PlanOut, ∀ g3 : String,
      ∀ a3 c3 : Option String, (make_plan svcP2 g3 a3 c3).2.length ≤ 2) ∧
    (∀ svcA2 : Nat → AssetsPayload → Except PyExn AssetsOut, ∀ g4 : String,
      ∀ a4 c4 : Option String, ∀ plan2 : PlanOut, ∀ research2 : Option ResearchOut,
      (make_assets svcA2 g4 a4 c4 plan2 research2).2.length ≤ 2) := by
  refine ⟨?_, ?_, rfl, ?_, ?_, rfl, ?_, ?_⟩
  · simp [make_plan, hv]
  · simp [make_plan, hv]
  · simp [make_assets, hrs, hv2]
  · simp [make_assets, hrs, hv2]
  · intro svcP2 g3 a3 c3
    simp only [make_plan]
    split <;> simp
  · intro svcA2 g4 a4 c4 plan2 research2
    simp only [make_assets]
    split
    · simp
    · split <;> simp

/-- Witness for C4 at services that fail validation on call 0 and succeed
on call 1: both stages return the valid document with exactly two calls. -/
theorem C4_retry_once_witness :
    (make_plan svcPlanRetryOk "g" none none).1 = Except.ok samplePlan ∧
    (make_plan svcPlanRetryOk "g" none none).2.length = 2 ∧
    (make_assets svcAssetsRetryOk "g" none none samplePlan none).1
      = Except.ok sampleAssets ∧
    (make_assets svcAssetsRetryOk "g" none none samplePlan none).2.length = 2 := by
  have h := C4_retry_once svcPlanRetryOk svcAssetsRetryOk "g" "g" none none none none
    samplePlan none "" rfl rfl rfl
  refine ⟨?_, ?_, ?_, ?_⟩
  · rw [h.1]; rfl
  · rw [h.2.1]; rfl
  · rw [h.2.2.2.1]; rfl
  · rw [h.2.2.2.2.1]; rfl

/-- C6: the single-stage Assets handler, invoked with no Plan document in
the session store, emits the warning, makes zero outbound calls and leaves
the session unchanged. -/
theorem C6_assets_precondition (svc : Nat → AssetsPayload → Except PyExn AssetsOut)
    (g a c : String) (s : Session) (h : s.plan = none) :
    run_assets_handler svc g a c s = (s, 0, true) := by
  simp [run_assets_handler, h]

/-- Witness for C6 at the empty session. -/
theorem C6_assets_precondition_witness :
    run_assets_handler (fun _ _ => Except.ok sampleAssets) "g" "a" "c" emptySession
      = (emptySession, 0, true) :=
  C6_assets_precondition (fun _ _ => Except.ok sampleAssets) "g" "a" "c" emptySession rfl

/-- C10: re-running a single stage writes only that stage's slot — the Plan
handler never touches the research or assets slots (in particular an
existing AssetsDoc survives a successful Plan re-run unchanged), the
Research handler never touches the plan or assets slots, and the Assets
handler never touches the research or plan slots. -/
theorem C10_single_stage_frame
    (svcR : Nat → GenPayload → Except PyExn ResearchOut)
    (svcP : Nat → GenPayload → Except PyExn PlanOut)
    (svcA : Nat → AssetsPayload → Except PyExn AssetsOut)
    (g a c : String) (s : Session) :
    (run_plan_handler svcP g a c s).research = s.research ∧
    (run_plan_handler svcP g a c s).assets = s.assets ∧
    (run_research_handler svcR g a c s).plan = s.plan ∧
    (run_research_handler svcR g a c s).assets = s.assets ∧
    (run_assets_handler svcA g a c s).1.research = s.research ∧
    (run_assets_handler svcA g a c s).1.plan = s.plan := by
  refine ⟨?_, ?_, ?_, ?_, ?_, ?_⟩
  · unfold run_plan_handler
    cases (make_plan svcP g (some a) (some c)).1 <;> rfl
  · unfold run_plan_handler
    cases (make_plan svcP g (some a) (some c)).1 <;> rfl
  · unfold run_research_handler
    cases (make_research svcR g a c).1 <;> rfl
  · unfold run_research_handler
    cases (make_research svcR g a c).1 <;> rfl
  · cases hp : s.plan with
    | none => simp [run_assets_handler, hp]
    | some p =>
      cases h2 : (make_assets svcA g (some a) (some c) p s.research).1 <;>
        simp [run_assets_handler, hp, h2]
  · cases hp : s.plan with
    | none => simp [run_assets_handler, hp]
    | some p =>
      cases h2 : (make_assets svcA g (some a) (some c) p s.research).1 <;>
        simp [run_assets_handler, hp, h2]

/-- C7: a failed stage invocation leaves the whole session store unchanged
— every previously produced document, the failing stage's own prior one
included, stays exactly as it was.  This holds for each single-stage
handler and for each block of the run-all handler, for every failure mode
the oracle can produce. -/
theorem C7_failure_frame (svc : Services) (g a c : String) (s : Session) (p : PlanOut)
    (hplan : s.plan = some p)
    (hR : okB (make_research svc.research g a c).1 = false)
    (hP : okB (make_plan svc.plan g (some a) (some c)).1 = false)
    (hA : okB (make_assets svc.assets g (some a) (some c) p s.research).1 = false) :
    run_research_handler svc.research g a c s = s ∧
    run_plan_handler svc.plan g a c s = s ∧
    (run_assets_handler svc.assets g a c s).1 = s ∧
    runAllResearch svc g a c s = s ∧
    (runAllPlan svc g a c s).1 = s ∧
    (runAllAssets svc g a c s).1 = s := by
  refine ⟨?_, ?_, ?_, ?_, ?_, ?_⟩
  · cases h1 : (make_research svc.research g a c).1 with
    | ok r => rw [h1] at hR; simp [okB] at hR
    | error e => simp [run_research_handler, h1]
  · cases h1 : (make_plan svc.plan g (some a) (some c)).1 with
    | ok p2 => rw [h1] at hP; simp [okB] at hP
    | error e => simp [run_plan_handler, h1]
  · cases h1 : (make_assets svc.assets g (some a) (some c) p s.research).1 with
    | ok a2 => rw [h1] at hA; simp [okB] at hA
    | error e => simp [run_assets_handler, hplan, h1]
  · cases h1 : (make_research svc.research g a c).1 with
    | ok r => rw [h1] at hR; simp [okB] at hR
    | error e => simp [runAllResearch, h1]
  · cases hr : s.research with
    | none => simp [runAllPlan, hr]
    | some r0 =>
      cases h1 : (make_plan svc.plan g (some a) (some c)).1 with
      | ok p2 => rw [h1] at hP; simp [okB] at hP
      | error e => simp [runAllPlan, hr, h1]
  · cases h1 : (make_assets svc.assets g (some a) (some c) p s.research).1 with
    | ok a2 => rw [h1] at hA; simp [okB] at hA
    | error e => simp [runAllAssets, hplan, h1]

/-- Witness for C7: with always-failing services and a session already
holding Research and Plan documents, every handler leaves the session
exactly as it was. -/
theorem C7_failure_frame_witness :
    run_research_handler svcAllFail.research "g" "a" "c" sessionWithDocs
      = sessionWithDocs ∧
    run_plan_handler svcAllFail.plan "g" "a" "c" sessionWithDocs = sessionWithDocs ∧
    (run_assets_handler svcAllFail.assets "g" "a" "c" sessionWithDocs).1
      = sessionWithDocs ∧
    (runAllPlan svcAllFail "g" "a" "c" sessionWithDocs).1 = sessionWithDocs := by
  have h := C7_failure_frame svcAllFail "g" "a" "c" sessionWithDocs samplePlan
    rfl rfl rfl rfl
  exact ⟨h.1, h.2.1, h.2.2.1, h.2.2.2.2.1⟩

/-- The outbound trace of the Assets stage, given that the research summary
was built: it is either the single first payload or the first payload
followed by its retry amendment. -/
lemma make_assets_trace (svc : Nat → AssetsPayload → Except PyExn AssetsOut)
    (g : String) (a c : Option String) (plan : PlanOut)
    (research : Option ResearchOut) (rs : String)
    (h : researchSummary research = Except.ok rs) :
    (make_assets svc g a c plan research).2 = [assetsPayload1 g a c plan rs] ∨
    (make_assets svc g a c plan research).2
      = [assetsPayload1 g a c plan rs,
         retryAmendAssets (assetsPayload1 g a c plan rs)] := by
  unfold make_assets
  rw [h]
  cases hx : svc 0 (assetsPayload1 g a c plan rs) with
  | ok x => left; simp [hx]
  | error e =>
    cases e with
    | validation => right; simp [hx]
    | other => left; simp [hx]

/-- C9: every payload the Assets stage sends carries the grounding summary
built from the research document — the target names, the first three
insights and the `risk` field of the first two normalized risk items — and
when research is null the summary sent is the empty string (and the first
call is still made, so nothing of a ResearchDoc is needed). -/
theorem C9_grounding_summary (r : ResearchOut) (rs : List String)
    (h : risksTop2 (risksAsList r.risks) = Except.ok rs)
    (svc : Nat → AssetsPayload → Except PyExn AssetsOut)
    (g : String) (a c : Option String) (plan : PlanOut) :
    researchSummary (some r) = Except.ok
      ("targets=" ++ pyReprStrList (r.targets.map Target.name) ++ "\n" ++
       "insights_top3=" ++ pyReprStrList (r.insights.take 3) ++ "\n" ++
       "risks_top2=" ++ pyReprStrList rs) ∧
    (∀ pl ∈ (make_assets svc g a c plan (some r)).2,
      pl.research_summary
        = "targets=" ++ pyReprStrList (r.targets.map Target.name) ++ "\n" ++
          "insights_top3=" ++ pyReprStrList (r.insights.take 3) ++ "\n" ++
          "risks_top2=" ++ pyReprStrList rs) ∧
    researchSummary none = Except.ok "" ∧
    (∀ pl ∈ (make_assets svc g a c plan none).2, pl.research_summary = "") ∧
    1 ≤ (make_assets svc g a c plan none).2.length := by
  have hsum : researchSummary (some r) = Except.ok
      ("targets=" ++ pyReprStrList (r.targets.map Target.name) ++ "\n" ++
       "insights_top3=" ++ pyReprStrList (r.insights.take 3) ++ "\n" ++
       "risks_top2=" ++ pyReprStrList rs) := by
    simp [researchSummary, h]
  refine ⟨hsum, ?_, rfl, ?_, ?_⟩
  · intro pl hpl
    rcases make_assets_trace svc g a c plan (some r) _ hsum with htr | htr <;>
      rw [htr] at hpl <;>
      simp only [List.mem_cons, List.not_mem_nil, or_false] at hpl
    · subst hpl; rfl
    · rcases hpl with rfl | rfl <;> rfl
  · intro pl hpl
    rcases make_assets_trace svc g a c plan none "" rfl with htr | htr <;>
      rw [htr] at hpl <;>
      simp only [List.mem_cons, List.not_mem_nil, or_false] at hpl
    · subst hpl; rfl
    · rcases hpl with rfl | rfl <;> rfl
  · rcases make_assets_trace svc g a c plan none "" rfl with htr | htr <;> rw [htr] <;> simp

/-- Witness for C9 at the concrete sample research document. -/
theorem C9_grounding_summary_witness :
    risksTop2 (risksAsList sampleResearch.risks) = Except.ok ["scope creep"] ∧
    researchSummary (some sampleResearch) = Except.ok
      ("targets=" ++ pyReprStrList (sampleResearch.targets.map Target.name) ++ "\n" ++
       "insights_top3=" ++ pyReprStrList (sampleResearch.insights.take 3) ++ "\n" ++
       "risks_top2=" ++ pyReprStrList ["scope creep"]) :=
  ⟨rfl, (C9_grounding_summary sampleResearch ["scope creep"] rfl
      (fun _ _ => Except.ok sampleAssets) "g" none none samplePlan).1⟩

/-- C1 counterexample: with Research and Plan documents already stored by
earlier invocations, a run-all invocation whose Research stage fails still
invokes the Plan stage — and, the Plan call succeeding, the Assets stage
too: the run-all gates test the session store, not this run's success. -/
theorem C1_counterexample :
    okB (make_research svcResearchFails.research "g" "a" "c").1 = false ∧
    (runAll svcResearchFails "g" "a" "c" sessionWithDocs).2
      = [Stage.research, Stage.plan, Stage.assets] :=
  ⟨rfl, rfl⟩

/-- C1 amended: run-all short-circuiting holds from a session store with no
stored Research or Plan document — there, a Research failure means only
Research was invoked, and a Plan failure means Assets is never invoked.  In
general the gates test the presence of a stored document after the previous
stage's attempt, so prior documents from earlier invocations defeat the
short-circuit. -/
theorem C1_short_circuit (svc : Services) (g a c : String) (s0 : Session)
    (hr : s0.research = none) (hp : s0.plan = none) :
    (okB (make_research svc.research g a c).1 = false →
      (runAll svc g a c s0).2 = [Stage.research]) ∧
    (okB (make_plan svc.plan g (some a) (some c)).1 = false →
      Stage.assets ∉ (runAll svc g a c s0).2) := by
  cases h1 : (make_research svc.research g a c).1 with
  | error e =>
    constructor
    · intro _
      simp [runAll, runAllResearch, runAllPlan, runAllAssets, h1, hr, hp]
    · intro _
      simp [runAll, runAllResearch, runAllPlan, runAllAssets, h1, hr, hp]
  | ok r =>
    constructor
    · intro hfail
      simp [okB] at hfail
    · intro hPfail
      cases h2 : (make_plan svc.plan g (some a) (some c)).1 with
      | ok p => rw [h2] at hPfail; simp [okB] at hPfail
      | error e2 =>
        simp [runAll, runAllResearch, runAllPlan, runAllAssets, h1, h2, hp]

/-- Witness for C1's amended theorem: from the empty session with failing
services, only Research is invoked and Assets never is. -/
theorem C1_short_circuit_witness :
    (runAll svcAllFail "g" "a" "c" emptySession).2 = [Stage.research] ∧
    Stage.assets ∉ (runAll svcAllFail "g" "a" "c" emptySession).2 :=
  ⟨(C1_short_circuit svcAllFail "g" "a" "c" emptySession rfl rfl).1 rfl,
   (C1_short_circuit svcAllFail "g" "a" "c" emptySession rfl rfl).2 rfl⟩

end ActionPlanner
